import Mathlib

/-!
Verification development for the QTodoTxt2 main controller
(`qtodotxt/controllers/main_controller.py`).

The repository source available here is the controller alone; its
collaborators (`tasklib.Task`, `tasklib.filterTasks`, the filter classes of
`qtodotxt.lib.filters`, the `File` store and `QSettings`) are modelled from
the specification, as marked on each definition.  The controller's own
methods are embedded directly from the Python source; I/O outcomes
(file load/save results) are passed in as explicit `Except` parameters, and
the `error` Qt signal is modelled as an append-only list of emitted
messages.
-/

namespace QTodoTxt

/-- Modelled from the spec: `tasklib.Task` (not under src/).  The spec's data
model gives `text` as the source of truth with derived fields; the filter
predicates consume only the completion flag and the due-date-versus-today
comparison.  `dueFuture` stands for "`dueDate` is present and strictly after
today"; the date library and the ambient current date are outside the
available source, so the comparison's outcome is carried as a field. -/
structure Task where
  text : String
  is_complete : Bool
  dueFuture : Bool
deriving DecidableEq, Repr

/-- Modelled from the spec: construction of `tasklib.Task(text)` (not under
src/).  Per the spec, a leading completion marker `x ` sets the completion
state.  The outcome of the due-date-versus-today comparison is passed in as
`dueFuture`, since the date parsing and today's date are outside the
available source. -/
def mkTask (text : String) (dueFuture : Bool) : Task :=
  { text := text, is_complete := text.startsWith "x ", dueFuture := dueFuture }

/-- Substring test on character lists, used for the text predicate. -/
def containsSub (needle : List Char) : List Char → Bool
  | [] => needle.isEmpty
  | c :: rest => needle.isPrefixOf (c :: rest) || containsSub needle rest

/-- Modelled from the spec: the text predicate is a case-insensitive
substring match against the task's full text. -/
def textMatch (needle hay : String) : Bool :=
  containsSub needle.toLower.toList hay.toLower.toList

/-- Modelled from the spec: the predicate set of `qtodotxt.lib.filters`
(not under src/): text-contains, the future/complete/incomplete variants. -/
inductive Filter where
  | simpleText (text : String)
  | future
  | incomplete
  | complete
deriving DecidableEq, Repr

/-- Modelled from the spec: `matches(task) -> bool` for each predicate.
The future variant is the hide-future predicate as the controller uses it
(true when the task is NOT strictly-after-today due, i.e. the spec's
"due-on-or-before-today" variant, the inversion of "future"). -/
def Filter.matches : Filter → Task → Bool
  | .simpleText s, t => textMatch s t.text
  | .future, t => !t.dueFuture
  | .incomplete, t => !t.is_complete
  | .complete, t => t.is_complete

/-- Modelled from the spec: a task passes a filter group when it matches at
least one predicate in the group; an empty group is vacuously true. -/
def matchesGroup (g : List Filter) (t : Task) : Bool :=
  g.isEmpty || g.any (fun f => f.matches t)

/-- Modelled from the spec: the filter evaluator
`filter(groups, tasks)` (`tasklib.filterTasks`, not under src/): a task is
kept when it satisfies ALL groups (AND across groups, OR within a group);
output preserves input order. -/
def filterTasks (groups : List (List Filter)) (tasks : List Task) : List Task :=
  tasks.filter (fun t => groups.all (fun g => matchesGroup g t))

/-- Modelled from the spec: a value held by the persisted settings store. -/
inductive SettVal where
  | bool (b : Bool)
  | str (s : String)
  | nat (n : Nat)
  | list (l : List String)
deriving DecidableEq, Repr

/-- Modelled from the spec: the persisted settings store (`QSettings`),
a key-value map. -/
def Settings : Type := String → Option SettVal

/-- Modelled from the spec: `settings.setValue(key, val)`. -/
def Settings.setValue (st : Settings) (k : String) (v : SettVal) : Settings :=
  fun key => if key = k then some v else st key

/-- Extract a boolean settings value, with the given default when the key is
absent. -/
def getBoolD (v : Option SettVal) (d : Bool) : Bool :=
  match v with
  | some (.bool b) => b
  | _ => d

/-- Extract a numeric settings value, with the given default when the key is
absent. -/
def getNatD (v : Option SettVal) (d : Nat) : Nat :=
  match v with
  | some (.nat n) => n
  | _ => d

/-- Extract a string-list settings value, with the given default when the
key is absent. -/
def getListD (v : Option SettVal) (d : List String) : List String :=
  match v with
  | some (.list l) => l
  | _ => d

/-- The controller state: the fields of `MainController` the embedded
methods read or write, plus the store collaborator's contents
(`self._file.tasks`, `self._file.filename`) and the emitted `error` signal
messages. -/
structure MainController where
  fileTasks : List Task
  filename : String
  filteredTasks : List Task
  currentFilters : List Filter
  searchText : String
  showFuture : Bool
  showCompleted : Bool
  modified : Bool
  recentFiles : List String
  settings : Settings
  emittedErrors : List String

/-- `MainController.__init__` (main_controller.py lines 21-39): both
visibility flags read the settings key `"show_completed"`, with defaults
`False` for `_showCompleted` and `True` for `_showFuture`; the recent-file
list is read from `"recent_files"`. -/
def MainController.init (settings : Settings) : MainController :=
  { fileTasks := []
    filename := ""
    filteredTasks := []
    currentFilters := []
    searchText := ""
    showCompleted := getBoolD (settings "show_completed") false
    showFuture := getBoolD (settings "show_completed") true
    modified := false
    recentFiles := getListD (settings "recent_files") []
    settings := settings
    emittedErrors := [] }

/-- `MainController._applyFilters` (lines 160-173), the list it computes:
current filters first, then the search text, then the future filter when
`showFuture` is off, then the incomplete filter when `showCompleted` is off
and no complete-tasks filter is among the current filters. -/
def applyFiltersPure (s : MainController) : List Task :=
  let tasks := filterTasks [s.currentFilters] s.fileTasks
  let tasks := if s.searchText ≠ "" then
      filterTasks [[Filter.simpleText s.searchText]] tasks
    else tasks
  let tasks := if !s.showFuture then filterTasks [[Filter.future]] tasks else tasks
  let tasks := if !s.showCompleted && !(s.currentFilters.contains Filter.complete) then
      filterTasks [[Filter.incomplete]] tasks
    else tasks
  tasks

/-- `MainController._applyFilters` as a state transformer: stores the
computed list in `_filteredTasks`. -/
def MainController.applyFilters (s : MainController) : MainController :=
  { s with filteredTasks := applyFiltersPure s }

/-- `MainController.setModified` (lines 191-195); title and completion
string updates touch no field modelled here. -/
def MainController.setModified (s : MainController) (val : Bool) : MainController :=
  { s with modified := val }

/-- `MainController.showError` (lines 46-48): emit on the `error` signal. -/
def MainController.showError (s : MainController) (msg : String) : MainController :=
  { s with emittedErrors := s.emittedErrors ++ [msg] }

/-- `MainController.save` (lines 197-208).  The outcome of
`self._file.save(filename)` is the explicit `io` argument (`.error` = the
`OSError` the collaborator raised).  On failure the error is shown and the
method returns at once; only on success are `"last_open_file"` and the
modified flag updated. -/
def MainController.save (s : MainController) (io : Except String Unit) : MainController :=
  match io with
  | .error ex => s.showError ex
  | .ok _ =>
    let s := { s with settings := s.settings.setValue "last_open_file" (.str s.filename) }
    s.setModified false

/-- `MainController.auto_save` (lines 135-137): save when the `"auto_save"`
setting (default 1) is nonzero. -/
def MainController.auto_save (s : MainController) (io : Except String Unit) : MainController :=
  if getNatD (s.settings "auto_save") 1 ≠ 0 then s.save io else s

/-- `MainController._taskModified` (lines 41-44): the task argument only
feeds signals, so it is omitted; the handler marks the store modified,
re-applies the filters and auto-saves. -/
def MainController.taskModified (s : MainController) (io : Except String Unit) : MainController :=
  ((s.setModified true).applyFilters).auto_save io

/-- Python `list.insert(i, x)` index semantics: a negative index counts
from the end and clamps at 0; a large index clamps at the length. -/
def pyInsert (l : List Task) (i : Int) (x : Task) : List Task :=
  let n : Int := l.length
  let j : Int := if i < 0 then max (n + i) 0 else min i n
  l.insertIdx j.toNat x

/-- Python `l[i]` index semantics: a negative index counts from the end;
out of range yields none (an `IndexError`). -/
def pyGet (l : List Task) (i : Int) : Option Task :=
  if 0 ≤ i then l.get? i.toNat
  else if 0 ≤ i + l.length then l.get? (i + (l.length : Int)).toNat
  else none

/-- `MainController.newTask` (lines 72-82): build the task, default the
insertion point to the end of the filtered list, append to the store,
insert directly into `_filteredTasks` ("force the new task to be visible"),
mark modified and auto-save; returns the insertion index. -/
def MainController.newTask (s : MainController) (text : String) (dueFuture : Bool)
    (after : Option Int) (io : Except String Unit) : MainController × Int :=
  let task := mkTask text dueFuture
  let a : Int := match after with
    | none => (s.filteredTasks.length : Int) - 1
    | some n => n
  let s := { s with fileTasks := s.fileTasks ++ [task],
                    filteredTasks := pyInsert s.filteredTasks (a + 1) task }
  let s := s.setModified true
  (s.auto_save io, a + 1)

/-- `MainController.deleteTask` (lines 84-91): an argument that is not a
`Task` is used as an index into the filtered list; the resolved task is
removed from the store (`list.remove`: first occurrence, `ValueError` when
absent), the modified flag set and the filters re-applied. -/
def MainController.deleteTask (s : MainController) (arg : Task ⊕ Int) :
    Except String MainController :=
  match (match arg with
         | .inl t => Except.ok t
         | .inr i => match pyGet s.filteredTasks i with
                     | some t => Except.ok t
                     | none => Except.error "IndexError") with
  | .error e => .error e
  | .ok t =>
    if s.fileTasks.contains t then
      let s := { s with fileTasks := s.fileTasks.erase t }
      .ok ((s.setModified true).applyFilters)
    else
      .error "ValueError"

/-- `MainController.updateRecentFile` (lines 265-271): drop the current
filename from the recent list when present (first occurrence), push it to
the front, truncate to the `"max_recent_files"` setting (default 6) and
persist. -/
def MainController.updateRecentFile (s : MainController) : MainController :=
  let r := if s.filename ∈ s.recentFiles then s.recentFiles.erase s.filename
           else s.recentFiles
  let r := s.filename :: r
  let r := r.take (getNatD (s.settings "max_recent_files") 6)
  { s with recentFiles := r,
           settings := s.settings.setValue "recent_files" (.list r) }

/-- The message `MainController.open` formats on a load failure
(line 250). -/
def mkOpenError (filename ex : String) : String :=
  "Error opening file: " ++ filename ++ ".\n Exception:" ++ ex

/-- `MainController._loadFileToUI` (lines 273-275): clears the modified
flag; the filter-tree refresh touches no modelled field. -/
def MainController.loadFileToUI (s : MainController) : MainController :=
  s.setModified false

/-- `MainController.open` (lines 242-257; `open` is reserved in Lean).  The
outcome of `self._file.load(filename)` is the explicit `io` argument.  On
failure the formatted error is shown and the method returns; on success the
store holds the loaded tasks, the UI state is reset, `"last_open_file"` is
persisted, the filters re-applied and the recent-file list updated. -/
def MainController.openFile (s : MainController) (filename : String)
    (io : Except String (List Task)) : MainController :=
  let filename := if filename.startsWith "file:/" then filename.drop 6 else filename
  match io with
  | .error ex => s.showError (mkOpenError filename ex)
  | .ok tasks =>
    let s := { s with fileTasks := tasks, filename := filename }
    let s := s.loadFileToUI
    let s := { s with settings := s.settings.setValue "last_open_file" (.str filename) }
    let s := s.applyFilters
    s.updateRecentFile

/-! Concrete states used by witnesses and counterexamples. -/

/-- An empty settings store. -/
def noSettings : Settings := fun _ => none

/-- An incomplete sample task. -/
def tIncomplete : Task := { text := "t", is_complete := false, dueFuture := false }

/-- A freshly constructed controller over an empty store, with both
visibility toggles on. -/
def baseState : MainController :=
  { fileTasks := [], filename := "", filteredTasks := [], currentFilters := [],
    searchText := "", showFuture := true, showCompleted := true, modified := false,
    recentFiles := [], settings := noSettings, emittedErrors := [] }

/-- A controller whose current filter is the complete-tasks filter. -/
def cxNewTaskState : MainController := { baseState with currentFilters := [Filter.complete] }

/-- A settings store whose persisted recent-file list holds a duplicate. -/
def cxRecentSettings : Settings :=
  fun k => if k = "recent_files" then some (.list ["a", "a"]) else none

/-- The controller reached by constructing over `cxRecentSettings` and
opening the file `"a"` (whose load yields no tasks). -/
def cxRecentState : MainController := (MainController.init cxRecentSettings).openFile "a" (.ok [])

/-- A settings store configuring a recent-file maximum of 0, with no
persisted recent-file list. -/
def cxMaxZeroSettings : Settings :=
  fun k => if k = "max_recent_files" then some (.nat 0) else none

/-- The controller reached by constructing over `cxMaxZeroSettings` and
opening the file `"a"` (whose load yields no tasks). -/
def cxMaxZeroState : MainController := (MainController.init cxMaxZeroSettings).openFile "a" (.ok [])

/-- A settings store carrying `show_completed = true`. -/
def wShowSettings : Settings :=
  fun k => if k = "show_completed" then some (.bool true) else none

/-- A controller holding one incomplete task, visible in the filtered
list. -/
def wDeleteState : MainController :=
  { baseState with fileTasks := [tIncomplete], filteredTasks := [tIncomplete] }

/-- The state `wDeleteState.deleteTask` reaches after removing
`tIncomplete`. -/
def wDeleted : MainController :=
  ((({ wDeleteState with fileTasks := wDeleteState.fileTasks.erase tIncomplete
     }).setModified true).applyFilters)

/-! Helper lemmas about the evaluator and the state transformers. -/

theorem filterTasks_nilGroups (ts : List Task) : filterTasks [] ts = ts := by
  simp [filterTasks]

theorem filterTasks_append (gs hs : List (List Filter)) (ts : List Task) :
    filterTasks (gs ++ hs) ts = filterTasks hs (filterTasks gs ts) := by
  unfold filterTasks
  rw [List.filter_filter]
  congr 1
  funext t
  simp [List.all_append, Bool.and_comm]

theorem applyFiltersPure_save (s : MainController) (io : Except String Unit) :
    applyFiltersPure (s.save io) = applyFiltersPure s := by
  cases io <;> rfl

theorem filteredTasks_save (s : MainController) (io : Except String Unit) :
    (s.save io).filteredTasks = s.filteredTasks := by
  cases io <;> rfl

theorem applyFiltersPure_auto_save (s : MainController) (io : Except String Unit) :
    applyFiltersPure (s.auto_save io) = applyFiltersPure s := by
  unfold MainController.auto_save
  by_cases h : getNatD (s.settings "auto_save") 1 ≠ 0
  · simp [h, applyFiltersPure_save]
  · simp [h]

theorem filteredTasks_auto_save (s : MainController) (io : Except String Unit) :
    (s.auto_save io).filteredTasks = s.filteredTasks := by
  unfold MainController.auto_save
  by_cases h : getNatD (s.settings "auto_save") 1 ≠ 0
  · simp [h, filteredTasks_save]
  · simp [h]

/-! Claim theorems. -/

/-- C1: `_applyFilters` composes the current filter group with, when
applicable, the search-text predicate, the future-hiding group and the
Incomplete predicate, each AND'd in as a further group, and stores the
evaluator's result as the filtered-task list. -/
theorem applyFilters_composition (s : MainController) :
    (MainController.applyFilters s).filteredTasks =
      filterTasks ([s.currentFilters]
          ++ (if s.searchText ≠ "" then [[Filter.simpleText s.searchText]] else [])
          ++ (if !s.showFuture then [[Filter.future]] else [])
          ++ (if !s.showCompleted && !(s.currentFilters.contains Filter.complete) then
                [[Filter.incomplete]] else []))
        s.fileTasks := by
  show applyFiltersPure s = _
  rw [filterTasks_append, filterTasks_append, filterTasks_append]
  unfold applyFiltersPure
  by_cases h1 : s.searchText = "" <;>
    by_cases h2 : s.showFuture = true <;>
      by_cases h3 : s.showCompleted = false ∧ Filter.complete ∉ s.currentFilters <;>
        simp [h1, h2, h3, filterTasks_nilGroups]

/-- C2: the evaluator applied to an empty sequence of filter groups is the
identity transform on every task list. -/
theorem filterTasks_empty_groups_identity (ts : List Task) : filterTasks [] ts = ts :=
  filterTasks_nilGroups ts

/-- C3: contradictory groups yield the empty result rather than an error:
for every task list, filtering by the complete-tasks group AND the
incomplete-tasks group produces the empty list (the evaluator is a total
function, so no input makes it fail). -/
theorem filterTasks_contradictory_empty (ts : List Task) :
    filterTasks [[Filter.complete], [Filter.incomplete]] ts = [] := by
  simp [filterTasks, matchesGroup, Filter.matches]

/-- C4: the evaluator's output is a sublist (order-preserving subsequence)
of its input, for every sequence of groups and every task list; in
particular every surviving task is an unmodified element of the input. -/
theorem filterTasks_sublist_of_input (groups : List (List Filter)) (ts : List Task) :
    List.Sublist (filterTasks groups ts) ts :=
  List.filter_sublist ts

/-- C5 (amended): after `deleteTask` and after a task-edit notification
(`_taskModified`) the filtered-task list equals re-running the evaluator
over the then-current store with the then-current filters, search text and
toggles; `newTask` is excluded, since it force-inserts the new task without
re-filtering. -/
theorem mutations_refilter (s : MainController) (io : Except String Unit) :
    ((s.taskModified io).filteredTasks = applyFiltersPure (s.taskModified io))
    ∧ ∀ (arg : Task ⊕ Int) (t : MainController),
        s.deleteTask arg = Except.ok t → t.filteredTasks = applyFiltersPure t := by
  constructor
  · unfold MainController.taskModified
    rw [filteredTasks_auto_save, applyFiltersPure_auto_save]
    rfl
  · intro arg t h
    unfold MainController.deleteTask at h
    cases arg with
    | inl tk =>
      simp only [] at h
      split at h
      · cases h
        rfl
      · cases h
    | inr i =>
      cases hp : pyGet s.filteredTasks i with
      | none => simp [hp] at h
      | some tk =>
        simp only [hp] at h
        split at h
        · cases h
          rfl
        · cases h

/-- C5 counterexample: with the complete-tasks filter active, `newTask`
leaves a filtered list different from what re-running the evaluator over
the post-mutation store produces (the incomplete new task is force-kept
visible). -/
theorem newTask_breaks_refilter_cx :
    ((cxNewTaskState.newTask "" false none (.ok ())).1).filteredTasks ≠
      applyFiltersPure ((cxNewTaskState.newTask "" false none (.ok ())).1) := by
  decide

/-- C5 witness: a concrete `deleteTask` run whose resulting filtered list
is the evaluator's result. -/
theorem mutations_refilter_witness :
    wDeleteState.deleteTask (Sum.inr 0) = Except.ok wDeleted
    ∧ wDeleted.filteredTasks = applyFiltersPure wDeleted :=
  ⟨by rfl, (mutations_refilter wDeleteState (Except.ok ())).2 (Sum.inr 0) wDeleted (by rfl)⟩

/-- C6: at construction both visibility flags are read from the single
settings key `"show_completed"`: `_showCompleted` with default false,
`_showFuture` with default true, so a stored boolean lands in both. -/
theorem init_reads_show_completed_for_both (st : Settings) :
    ((MainController.init st).showCompleted = getBoolD (st "show_completed") false)
    ∧ ((MainController.init st).showFuture = getBoolD (st "show_completed") true)
    ∧ ∀ b : Bool, st "show_completed" = some (SettVal.bool b) →
        (MainController.init st).showCompleted = b ∧ (MainController.init st).showFuture = b := by
  refine ⟨rfl, rfl, ?_⟩
  intro b hb
  constructor <;> simp [MainController.init, getBoolD, hb]

/-- C6 witness: with `show_completed` persisted as true, both flags come
out true. -/
theorem init_reads_show_completed_for_both_witness :
    (MainController.init wShowSettings).showCompleted = true
    ∧ (MainController.init wShowSettings).showFuture = true :=
  (init_reads_show_completed_for_both wShowSettings).2.2 true (by rfl)

/-- C7: on a load or save failure of the file collaborator, `open` and
`save` reduce exactly to emitting the error message on the `error` signal:
no exception escapes and no other state changes. -/
theorem io_errors_surfaced (s : MainController) (f ex e : String) :
    s.openFile f (Except.error ex)
        = s.showError (mkOpenError (if f.startsWith "file:/" then f.drop 6 else f) ex)
    ∧ s.save (Except.error e) = s.showError e :=
  ⟨rfl, rfl⟩

/-- C8 (amended): after `updateRecentFile` the list length never exceeds
the configured maximum (`max_recent_files`, default 6), unconditionally;
the current filename heads the list and occurs exactly once provided it
occurred at most once before (the removal deletes only the first
occurrence) and the configured maximum is at least 1. -/
theorem updateRecentFile_invariant (s : MainController) :
    ((s.updateRecentFile).recentFiles.length ≤ getNatD (s.settings "max_recent_files") 6)
    ∧ (s.recentFiles.count s.filename ≤ 1 →
        1 ≤ getNatD (s.settings "max_recent_files") 6 →
        (s.updateRecentFile).recentFiles.head? = some s.filename
        ∧ (s.updateRecentFile).recentFiles.count s.filename = 1) := by
  have hres : (s.updateRecentFile).recentFiles
      = (s.filename ::
          (if s.filename ∈ s.recentFiles then s.recentFiles.erase s.filename
           else s.recentFiles)).take (getNatD (s.settings "max_recent_files") 6) := rfl
  constructor
  · rw [hres]
    simp only [List.length_take]
    omega
  · intro h1 h2
    have hzero : (if s.filename ∈ s.recentFiles then s.recentFiles.erase s.filename
                  else s.recentFiles).count s.filename = 0 := by
      by_cases hmem : s.filename ∈ s.recentFiles
      · have hpos := List.count_pos_iff.mpr hmem
        simp only [hmem, if_true, List.count_erase_self]
        omega
      · simp only [hmem, if_false]
        exact List.count_eq_zero.mpr hmem
    obtain ⟨k, hk⟩ := Nat.exists_eq_add_of_le h2
    rw [hres, hk, Nat.add_comm 1 k, List.take_succ_cons]
    refine ⟨rfl, ?_⟩
    rw [List.count_cons_self]
    have hle := List.Sublist.count_le
      (List.take_sublist k (if s.filename ∈ s.recentFiles then s.recentFiles.erase s.filename
                            else s.recentFiles)) s.filename
    omega

/-- C8 counterexample: with a persisted recent-file list already holding
the filename twice, opening that file leaves it in the recent list twice,
not once; and with a configured maximum of 0 (no duplicates involved),
opening a file leaves the recent list empty, so the filename is not at
the front. -/
theorem updateRecentFile_front_once_cx :
    cxRecentState.recentFiles.count cxRecentState.filename ≠ 1
    ∧ cxMaxZeroState.recentFiles.head? ≠ some cxMaxZeroState.filename := by
  constructor <;> decide

/-- C8 witness: a concrete `updateRecentFile` run establishing the length
bound and, the provisos holding there, the front-and-once property. -/
theorem updateRecentFile_invariant_witness :
    ((baseState.updateRecentFile).recentFiles.length
        ≤ getNatD (baseState.settings "max_recent_files") 6)
    ∧ (baseState.updateRecentFile).recentFiles.head? = some baseState.filename
    ∧ (baseState.updateRecentFile).recentFiles.count baseState.filename = 1 :=
  ⟨(updateRecentFile_invariant baseState).1,
   (updateRecentFile_invariant baseState).2 (by decide) (by decide)⟩

/-- C9: when `deleteTask` receives a non-`Task` argument it is used as an
index into the filtered list, and the task at that filtered position is
removed from the store (then the modified flag is set and the filters
re-applied). -/
theorem deleteTask_by_index (s : MainController) (i : Int) (t : Task)
    (h1 : pyGet s.filteredTasks i = some t)
    (h2 : t ∈ s.fileTasks) :
    s.deleteTask (Sum.inr i)
      = Except.ok ((({ s with fileTasks := s.fileTasks.erase t
                     }).setModified true).applyFilters) := by
  unfold MainController.deleteTask
  simp [h1, h2]

/-- C9 witness: deleting by index 0 removes the task at filtered position
0 from the store. -/
theorem deleteTask_by_index_witness :
    wDeleteState.deleteTask (Sum.inr 0)
      = Except.ok ((({ wDeleteState with
            fileTasks := wDeleteState.fileTasks.erase tIncomplete
          }).setModified true).applyFilters) :=
  deleteTask_by_index wDeleteState 0 tIncomplete (by rfl) (by decide)

/-- C10: a failing save only emits the error: the modified flag and the
persisted `"last_open_file"` keep their prior values; both are updated
exactly when the save succeeds. -/
theorem save_error_atomicity (s : MainController) (e : String) :
    s.save (Except.error e) = s.showError e
    ∧ (s.save (Except.error e)).modified = s.modified
    ∧ ((s.save (Except.error e)).settings "last_open_file" = s.settings "last_open_file")
    ∧ (s.save (Except.ok ())).modified = false
    ∧ ((s.save (Except.ok ())).settings "last_open_file" = some (SettVal.str s.filename)) := by
  refine ⟨rfl, rfl, rfl, rfl, ?_⟩
  simp [MainController.save, MainController.setModified, Settings.setValue]

end QTodoTxt
